import Mathlib

/-!
# Upload-and-compress endpoint (`src/index.js`)

A shallow embedding of the single-file upload service: the multer `filename`
callback that names the stored file, and the `POST /upload` handler that
transcodes the image with sharp, deletes the original, measures the derived
file, saves a document to MongoDB and answers the client.

The external collaborators (sharp, `fs.promises.unlink`, `fs.statSync`,
`file.save()`, `path.join`) are not part of the repository.  They are taken as
an arbitrary environment `Env`: every theorem below holds for every behaviour
of these collaborators.  The handler runs in a small state-and-exception monad
whose state records, in order, every collaborator call the handler makes, every
console line it prints, every response it sends and the documents held by the
store.
-/

namespace Upload

/-! ## Data model -/

/-- The file object multer's disk storage puts on `req.file`. -/
structure UploadedFile where
  fieldname : String
  originalname : String
  encoding : String
  mimetype : String
  destination : String
  filename : String
  path : String
  size : Nat
  deriving DecidableEq, Repr

/-- The fields of `fileSchema` (index.js lines 22-33); also the shape of the
object literal `compressedFileData` (lines 87-93). -/
structure FileRecord where
  fieldname : String
  originalname : String
  encoding : String
  mimetype : String
  destination : String
  filename : String
  path : String
  size : Nat
  originalSize : Nat
  compressedSize : Nat
  deriving DecidableEq, Repr

/-- A JavaScript exception value, as thrown by a collaborator. -/
structure JsError where
  message : String
  deriving DecidableEq, Repr

/-- The JSON bodies the handler sends. -/
inductive Body where
  /-- The body `{ message }` (line 60). -/
  | noFile (message : String)
  /-- The body `{ message, originalSize, compressedSize, file }` (lines 100-105). -/
  | created (message : String) (originalSize compressedSize : Nat) (file : FileRecord)
  /-- The body `{ message, error }` (line 107). -/
  | failure (message : String) (error : JsError)
  deriving DecidableEq, Repr

/-- The `message` member, present in every body. -/
def Body.message : Body → String
  | .noFile m => m
  | .created m _ _ _ => m
  | .failure m _ => m

/-- One `res.status(s).json(b)` call. -/
structure Response where
  status : Nat
  body : Body
  deriving DecidableEq, Repr

/-- A call the handler makes to a side-effecting collaborator. -/
inductive Effect where
  /-- The call `sharp(src).resize(width).jpeg({ quality }).toFile(dst)`. -/
  | transcode (src : String) (width quality : Nat) (dst : String)
  /-- The call `fs.promises.unlink(p)`. -/
  | unlink (p : String)
  /-- The call `fs.statSync(p)`. -/
  | stat (p : String)
  /-- The call `new File(doc).save()`. -/
  | save (doc : FileRecord)
  deriving DecidableEq, Repr

/-- A line written to the console. -/
inductive ConsoleLine where
  | log (text : String)
  | error (text : String) (err : JsError)
  deriving DecidableEq, Repr

/-- What a run of the handler can change or emit. -/
structure World where
  /-- Collaborator calls made so far, oldest first. -/
  effects : List Effect
  /-- Console output so far. -/
  console : List ConsoleLine
  /-- Responses sent so far. -/
  responses : List Response
  /-- Documents in the `File` collection. -/
  store : List FileRecord
  deriving DecidableEq, Repr

/-- The behaviour of the collaborators the handler calls.  Each function gives
the outcome of the call with the given arguments: `.ok` when the promise
resolves (or the call returns), `.error e` when it rejects (or throws) `e`. -/
structure Env where
  /-- The result of `path.join(a, b)`. -/
  join : String → String → String
  /-- The call `sharp(src).resize(width).jpeg({ quality }).toFile(dst)`. -/
  sharp : String → Nat → Nat → String → Except JsError Unit
  /-- The call `fs.promises.unlink(p)`. -/
  unlink : String → Except JsError Unit
  /-- The outcome of `fs.statSync(p).size`. -/
  statSize : String → Except JsError Nat
  /-- The outcome of `new File(doc).save()`; a rejected save leaves the collection as it
  was. -/
  save : FileRecord → Except JsError Unit

/-- The request, as far as the handler reads it: `req.file`, absent when the
form had no `profileImage` part. -/
structure Request where
  file : Option UploadedFile

/-! ## The handler monad -/

/-- A computation that may throw, over the world state. -/
def Handler (α : Type) : Type := World → Except JsError α × World

/-- Return normally. -/
def Handler.pure {α : Type} (a : α) : Handler α := fun w => (.ok a, w)

/-- Sequencing: a throw skips the rest. -/
def Handler.bind {α β : Type} (m : Handler α) (f : α → Handler β) : Handler β := fun w =>
  match m w with
  | (.ok a, w1) => f a w1
  | (.error e, w1) => (.error e, w1)

/-- The statement `try { body } catch (error) { handler }`. -/
def Handler.tryCatch {α : Type} (body : Handler α) (handler : JsError → Handler α) :
    Handler α := fun w =>
  match body w with
  | (.ok a, w1) => (.ok a, w1)
  | (.error e, w1) => handler e w1

instance : Monad Handler where
  pure := Handler.pure
  bind := Handler.bind

instance : MonadExcept JsError Handler where
  throw e := fun w => (.error e, w)
  tryCatch := Handler.tryCatch

/-! ## Collaborator calls -/

/-- Append a collaborator call to the record of calls. -/
def World.perform (w : World) (e : Effect) : World :=
  { w with effects := w.effects ++ [e] }

/-- The call `res.status(status).json(body)`. -/
def resJson (status : Nat) (body : Body) : Handler Unit := fun w =>
  (.ok (), { w with responses := w.responses ++ [⟨status, body⟩] })

/-- The call `console.log(text)`. -/
def consoleLog (text : String) : Handler Unit := fun w =>
  (.ok (), { w with console := w.console ++ [.log text] })

/-- The call `console.error(text, err)`. -/
def consoleError (text : String) (err : JsError) : Handler Unit := fun w =>
  (.ok (), { w with console := w.console ++ [.error text err] })

/-- The step `await sharp(src).resize(width).jpeg({ quality }).toFile(dst)`. -/
def sharpToFile (env : Env) (src : String) (width quality : Nat) (dst : String) :
    Handler Unit := fun w =>
  (env.sharp src width quality dst, w.perform (.transcode src width quality dst))

/-- The step `await fs.promises.unlink(p)`. -/
def fsUnlink (env : Env) (p : String) : Handler Unit := fun w =>
  (env.unlink p, w.perform (.unlink p))

/-- The step `fs.statSync(p).size`. -/
def fsStatSize (env : Env) (p : String) : Handler Nat := fun w =>
  (env.statSize p, w.perform (.stat p))

/-- The step `await new File(doc).save()`: the document enters the collection exactly
when the save resolves. -/
def fileSave (env : Env) (doc : FileRecord) : Handler Unit := fun w =>
  match env.save doc with
  | .ok () => (.ok (), { w.perform (.save doc) with store := w.store ++ [doc] })
  | .error e => (.error e, w.perform (.save doc))

/-! ## The program -/

/-- The constant `uploadDir = './uploads'` (line 9). -/
def uploadDir : String := "./uploads"

/-- The multer `filename` callback (lines 45-48): the template string
`${Date.now()}-${file.originalname}`, with `now` the value of `Date.now()`
(milliseconds since the epoch). -/
def filename (now : Nat) (originalname : String) : String :=
  toString now ++ "-" ++ originalname

/-- The path of the derived file, `path.join(uploadDir, "compressed-" + fileData.filename)`
(line 67). -/
def compressedImagePath (env : Env) (fileData : UploadedFile) : String :=
  env.join uploadDir ("compressed-" ++ fileData.filename)

/-- The object literal `compressedFileData` (lines 87-93): the spread of
`fileData`, then `path`, `size`, `originalSize` and `compressedSize`. -/
def compressedFileData (fileData : UploadedFile) (compressedImagePath : String)
    (originalSize compressedSize : Nat) : FileRecord :=
  { fieldname := fileData.fieldname
    originalname := fileData.originalname
    encoding := fileData.encoding
    mimetype := fileData.mimetype
    destination := fileData.destination
    filename := fileData.filename
    path := compressedImagePath
    size := compressedSize
    originalSize := originalSize
    compressedSize := compressedSize }

/-- The `POST /upload` handler (lines 54-109). -/
def uploadHandler (env : Env) (req : Request) : Handler Unit :=
  tryCatch
    (match req.file with
      | none => resJson 400 (.noFile "No file uploaded")
      | some fileData => do
        let originalSize := fileData.size
        let compressedImagePath := compressedImagePath env fileData
        sharpToFile env fileData.path 800 80 compressedImagePath
        tryCatch
          (do
            fsUnlink env fileData.path
            consoleLog ("Original file " ++ fileData.path ++ " deleted successfully."))
          (fun error => consoleError "Error deleting the original file:" error)
        let compressedSize ← fsStatSize env compressedImagePath
        let compressedFileData :=
          compressedFileData fileData compressedImagePath originalSize compressedSize
        fileSave env compressedFileData
        resJson 201 (.created "File uploaded, compressed, and data saved successfully"
          originalSize compressedSize compressedFileData))
    (fun error => resJson 500 (.failure "Error processing the file" error))

/-- A world in which nothing has happened yet and the collection holds `store`. -/
def World.fresh (store : List FileRecord) : World :=
  { effects := [], console := [], responses := [], store := store }

/-- The world after the handler has run on `req` from `w`. -/
def run (env : Env) (req : Request) (w : World) : World :=
  (uploadHandler env req w).2

/-- The console line the deletion step leaves: the success line, or the error
line when `unlink` rejected. -/
def unlinkLine (env : Env) (fileData : UploadedFile) : ConsoleLine :=
  match env.unlink fileData.path with
  | .ok () => .log ("Original file " ++ fileData.path ++ " deleted successfully.")
  | .error e => .error "Error deleting the original file:" e

/-- Whether a collaborator call is a file deletion. -/
def Effect.isUnlink : Effect → Bool
  | .unlink _ => true
  | _ => false

/-- Whether a collaborator call submits a document to the store. -/
def Effect.isSave : Effect → Bool
  | .save _ => true
  | _ => false

/-- The decimal numeral of `n`, as the specification words it: the base-10
digits of `n`, most significant first, and zero written as the single digit
`0`.  Stated with `Nat.digits`, independently of `toString`. -/
def decimal (n : Nat) : String :=
  String.mk (if n = 0 then ['0'] else (Nat.digits 10 n).reverse.map Nat.digitChar)

/-! ## Uploads as multer hands them over -/

/-- A name of a directory entry: it holds no `/` and no backslash, and is none
of the empty name, `.` and `..`. -/
def PlainName (s : String) : Prop :=
  '/' ∉ s.data ∧ Char.ofNat 92 ∉ s.data ∧ s ≠ "" ∧ s ≠ "." ∧ s ≠ ".."

instance (s : String) : Decidable (PlainName s) := by
  unfold PlainName
  infer_instance

/-- What the handler relies on from `path.join`: inside the upload directory,
two different plain names are joined to two different paths.  Node's
`path.join` does this on every platform, since normalising a path touches only
separators, empty segments, `.` and `..`; on names that hold a separator it
does not (`x/../y` and `y` are joined to the same path). -/
def KeepsPlainNamesApart (join : String → String → String) : Prop :=
  ∀ a b, PlainName a → PlainName b → join uploadDir a = join uploadDir b → a = b

/-- The descriptor of an upload received when `Date.now()` read `now`, as
multer's disk storage builds it from the `storage` of lines 41-49: the
`originalname` is the base name of the client's file name, so it holds no
separator (`preservePath` is not set on line 51); `destination` is what the
`destination` callback passes (line 43); `filename` is what the `filename`
callback passes (lines 46-47); and `path` is `path.join(destination, filename)`. -/
def FromStorage (env : Env) (now : Nat) (f : UploadedFile) : Prop :=
  '/' ∉ f.originalname.data ∧ Char.ofNat 92 ∉ f.originalname.data ∧
  f.destination = uploadDir ∧
  f.filename = filename now f.originalname ∧
  f.path = env.join f.destination f.filename

instance (env : Env) (now : Nat) (f : UploadedFile) : Decidable (FromStorage env now f) := by
  unfold FromStorage
  infer_instance

/-! ## A sample `path.join`

Node's `path.posix.join`, segment by segment, used as the `join` of the sample
environments `envNodeOk` and `envNodeSaveFails`. -/

/-- The segments of a path: the pieces between its `/` characters. -/
def splitSlash : List Char → List (List Char)
  | [] => [[]]
  | c :: cs =>
    if c = '/' then [] :: splitSlash cs
    else
      match splitSlash cs with
      | [] => [[c]]
      | s :: ss => (c :: s) :: ss

/-- One segment met while normalising, with the segments kept so far held
innermost first: an empty segment and `.` are dropped, `..` removes the segment
before it (or is kept, in a relative path, when there is none left to remove),
any other segment is kept. -/
def pushSegment (allowAboveRoot : Bool) (stack : List (List Char)) (seg : List Char) :
    List (List Char) :=
  if seg = [] ∨ seg = ['.'] then stack
  else if seg = ['.', '.'] then
    match stack with
    | [] => if allowAboveRoot then [seg] else []
    | top :: rest =>
      if top = ['.', '.'] then (if allowAboveRoot then seg :: stack else stack) else rest
  else seg :: stack

/-- The segments written out with `/` between them. -/
def joinSlash : List (List Char) → List Char
  | [] => []
  | [s] => s
  | s :: t :: ss => s ++ '/' :: joinSlash (t :: ss)

/-- The function `path.posix.normalize`. -/
def posixNormalize (p : List Char) : List Char :=
  if p = [] then ['.']
  else
    let isAbsolute := p.head? = some '/'
    let trailing := p.getLast? = some '/'
    let body := joinSlash ((splitSlash p).foldl (pushSegment (!isAbsolute)) []).reverse
    if body = [] then
      if isAbsolute then ['/'] else if trailing then ['.', '/'] else ['.']
    else (if isAbsolute then ['/'] else []) ++ body ++ (if trailing then ['/'] else [])

/-- The function `path.posix.join` on two arguments: the non-empty ones, with a
`/` between them, normalised. -/
def posixJoin (a b : String) : String :=
  if a = "" then (if b = "" then "." else String.mk (posixNormalize b.data))
  else if b = "" then String.mk (posixNormalize a.data)
  else String.mk (posixNormalize (a.data ++ '/' :: b.data))

/-! ## Sample inputs -/

/-- Collaborators that all succeed; the derived file measures 1234 bytes.  The
join is `path.join` as it acts on `./uploads` and a name without separators. -/
def envAllOk : Env :=
  { join := fun _ b => "uploads/" ++ b
    sharp := fun _ _ _ _ => .ok ()
    unlink := fun _ => .ok ()
    statSize := fun _ => .ok 1234
    save := fun _ => .ok () }

/-- A descriptor as multer builds it for `photo.jpg` received at time 1000. -/
def fileA : UploadedFile :=
  { fieldname := "profileImage"
    originalname := "photo.jpg"
    encoding := "7bit"
    mimetype := "image/jpeg"
    destination := "./uploads"
    filename := "1000-photo.jpg"
    path := "uploads/1000-photo.jpg"
    size := 3200000 }

/-- The source is not a decodable image: sharp rejects. -/
def envTranscodeFails : Env :=
  { envAllOk with
    sharp := fun _ _ _ _ => .error ⟨"Input file contains unsupported image format"⟩ }

/-- The derived file cannot be measured: `statSync` throws. -/
def envStatFails : Env :=
  { envAllOk with statSize := fun _ => .error ⟨"ENOENT"⟩ }

/-- The metadata store is unreachable: `save` rejects. -/
def envSaveFails : Env :=
  { envAllOk with save := fun _ => .error ⟨"MongoNetworkError"⟩ }

/-- An `unlink` that resolves. -/
def unlinkResolves : String → Except JsError Unit := fun _ => .ok ()

/-- An `unlink` that rejects. -/
def unlinkRejects : String → Except JsError Unit := fun _ => .error ⟨"EPERM"⟩

/-- The 201 response to `fileA` under `envAllOk`. -/
def responseA : Response :=
  ⟨201, .created "File uploaded, compressed, and data saved successfully" 3200000 1234
    { fieldname := "profileImage"
      originalname := "photo.jpg"
      encoding := "7bit"
      mimetype := "image/jpeg"
      destination := "./uploads"
      filename := "1000-photo.jpg"
      path := "uploads/compressed-1000-photo.jpg"
      size := 1234
      originalSize := 3200000
      compressedSize := 1234 }⟩

/-- The collaborators of `envAllOk`, with `path.posix.join` as the join. -/
def envNodeOk : Env :=
  { envAllOk with join := posixJoin }

/-- The collaborators of `envSaveFails`, with `path.posix.join` as the join. -/
def envNodeSaveFails : Env :=
  { envSaveFails with join := posixJoin }

/-! ## What a run does, case by case -/

theorem run_noFile (env : Env) (w : World) :
    run env ⟨none⟩ w =
      { w with responses := w.responses ++ [⟨400, .noFile "No file uploaded"⟩] } := rfl

theorem run_transcodeFails (env : Env) (f : UploadedFile) (w : World) (e : JsError)
    (h : env.sharp f.path 800 80 (compressedImagePath env f) = .error e) :
    run env ⟨some f⟩ w =
      { effects := w.effects ++ [.transcode f.path 800 80 (compressedImagePath env f)]
        console := w.console
        responses := w.responses ++ [⟨500, .failure "Error processing the file" e⟩]
        store := w.store } := by
  simp [run, uploadHandler, tryCatch, tryCatchThe, MonadExcept.tryCatch, Handler.tryCatch,
    bind, Handler.bind, sharpToFile, h, resJson, World.perform]

theorem run_statFails (env : Env) (f : UploadedFile) (w : World) (e : JsError)
    (h1 : env.sharp f.path 800 80 (compressedImagePath env f) = .ok ())
    (h2 : env.statSize (compressedImagePath env f) = .error e) :
    run env ⟨some f⟩ w =
      { effects := w.effects ++ [.transcode f.path 800 80 (compressedImagePath env f),
          .unlink f.path, .stat (compressedImagePath env f)]
        console := w.console ++ [unlinkLine env f]
        responses := w.responses ++ [⟨500, .failure "Error processing the file" e⟩]
        store := w.store } := by
  cases hu : env.unlink f.path <;>
  simp [run, uploadHandler, tryCatch, tryCatchThe, MonadExcept.tryCatch, Handler.tryCatch,
    bind, Handler.bind, sharpToFile, fsUnlink, fsStatSize, consoleLog, consoleError, unlinkLine,
    h1, h2, hu, resJson, World.perform]

theorem run_saveFails (env : Env) (f : UploadedFile) (w : World) (n : Nat) (e : JsError)
    (h1 : env.sharp f.path 800 80 (compressedImagePath env f) = .ok ())
    (h2 : env.statSize (compressedImagePath env f) = .ok n)
    (h3 : env.save (compressedFileData f (compressedImagePath env f) f.size n) = .error e) :
    run env ⟨some f⟩ w =
      { effects := w.effects ++ [.transcode f.path 800 80 (compressedImagePath env f),
          .unlink f.path, .stat (compressedImagePath env f),
          .save (compressedFileData f (compressedImagePath env f) f.size n)]
        console := w.console ++ [unlinkLine env f]
        responses := w.responses ++ [⟨500, .failure "Error processing the file" e⟩]
        store := w.store } := by
  cases hu : env.unlink f.path <;>
  simp [run, uploadHandler, tryCatch, tryCatchThe, MonadExcept.tryCatch, Handler.tryCatch,
    bind, Handler.bind, sharpToFile, fsUnlink, fsStatSize, fileSave, consoleLog, consoleError,
    unlinkLine, h1, h2, h3, hu, resJson, World.perform]

theorem run_allSucceed (env : Env) (f : UploadedFile) (w : World) (n : Nat)
    (h1 : env.sharp f.path 800 80 (compressedImagePath env f) = .ok ())
    (h2 : env.statSize (compressedImagePath env f) = .ok n)
    (h3 : env.save (compressedFileData f (compressedImagePath env f) f.size n) = .ok ()) :
    run env ⟨some f⟩ w =
      { effects := w.effects ++ [.transcode f.path 800 80 (compressedImagePath env f),
          .unlink f.path, .stat (compressedImagePath env f),
          .save (compressedFileData f (compressedImagePath env f) f.size n)]
        console := w.console ++ [unlinkLine env f]
        responses := w.responses ++
          [⟨201, .created "File uploaded, compressed, and data saved successfully" f.size n
            (compressedFileData f (compressedImagePath env f) f.size n)⟩]
        store := w.store ++ [compressedFileData f (compressedImagePath env f) f.size n] } := by
  cases hu : env.unlink f.path <;>
  simp [run, uploadHandler, tryCatch, tryCatchThe, MonadExcept.tryCatch, Handler.tryCatch,
    bind, Handler.bind, sharpToFile, fsUnlink, fsStatSize, fileSave, consoleLog, consoleError,
    unlinkLine, h1, h2, h3, hu, resJson, World.perform]

/-- Every run with a file present falls in exactly one of four cases, by the
first step that fails. -/
theorem run_file_cases (env : Env) (f : UploadedFile) (w : World) :
    (∃ e, env.sharp f.path 800 80 (compressedImagePath env f) = .error e ∧
      run env ⟨some f⟩ w =
        { effects := w.effects ++ [.transcode f.path 800 80 (compressedImagePath env f)]
          console := w.console
          responses := w.responses ++ [⟨500, .failure "Error processing the file" e⟩]
          store := w.store }) ∨
    (∃ e, env.sharp f.path 800 80 (compressedImagePath env f) = .ok () ∧
      env.statSize (compressedImagePath env f) = .error e ∧
      run env ⟨some f⟩ w =
        { effects := w.effects ++ [.transcode f.path 800 80 (compressedImagePath env f),
            .unlink f.path, .stat (compressedImagePath env f)]
          console := w.console ++ [unlinkLine env f]
          responses := w.responses ++ [⟨500, .failure "Error processing the file" e⟩]
          store := w.store }) ∨
    (∃ n e, env.sharp f.path 800 80 (compressedImagePath env f) = .ok () ∧
      env.statSize (compressedImagePath env f) = .ok n ∧
      env.save (compressedFileData f (compressedImagePath env f) f.size n) = .error e ∧
      run env ⟨some f⟩ w =
        { effects := w.effects ++ [.transcode f.path 800 80 (compressedImagePath env f),
            .unlink f.path, .stat (compressedImagePath env f),
            .save (compressedFileData f (compressedImagePath env f) f.size n)]
          console := w.console ++ [unlinkLine env f]
          responses := w.responses ++ [⟨500, .failure "Error processing the file" e⟩]
          store := w.store }) ∨
    (∃ n, env.sharp f.path 800 80 (compressedImagePath env f) = .ok () ∧
      env.statSize (compressedImagePath env f) = .ok n ∧
      env.save (compressedFileData f (compressedImagePath env f) f.size n) = .ok () ∧
      run env ⟨some f⟩ w =
        { effects := w.effects ++ [.transcode f.path 800 80 (compressedImagePath env f),
            .unlink f.path, .stat (compressedImagePath env f),
            .save (compressedFileData f (compressedImagePath env f) f.size n)]
          console := w.console ++ [unlinkLine env f]
          responses := w.responses ++
            [⟨201, .created "File uploaded, compressed, and data saved successfully" f.size n
              (compressedFileData f (compressedImagePath env f) f.size n)⟩]
          store := w.store ++ [compressedFileData f (compressedImagePath env f) f.size n] }) := by
  rcases h1 : env.sharp f.path 800 80 (compressedImagePath env f) with e | u
  · exact Or.inl ⟨e, rfl, run_transcodeFails env f w e h1⟩
  · right
    rcases h2 : env.statSize (compressedImagePath env f) with e | n
    · exact Or.inl ⟨e, rfl, rfl, run_statFails env f w e h1 h2⟩
    · right
      rcases h3 : env.save (compressedFileData f (compressedImagePath env f) f.size n)
        with e | u
      · exact Or.inl ⟨n, e, rfl, rfl, h3, run_saveFails env f w n e h1 h2 h3⟩
      · exact Or.inr ⟨n, rfl, rfl, h3, run_allSucceed env f w n h1 h2 h3⟩

/-- A 201 response is only ever sent by a run in which a file was present and
the transcode, the measurement and the save all succeeded. -/
theorem created_inv (env : Env) (req : Request) (store : List FileRecord) (r : Response)
    (hr : r ∈ (run env req (World.fresh store)).responses) (h201 : r.status = 201) :
    ∃ f n, req.file = some f ∧
      env.sharp f.path 800 80 (compressedImagePath env f) = .ok () ∧
      env.statSize (compressedImagePath env f) = .ok n ∧
      env.save (compressedFileData f (compressedImagePath env f) f.size n) = .ok () ∧
      r = ⟨201, .created "File uploaded, compressed, and data saved successfully" f.size n
            (compressedFileData f (compressedImagePath env f) f.size n)⟩ ∧
      run env req (World.fresh store) =
        { effects := [.transcode f.path 800 80 (compressedImagePath env f),
            .unlink f.path, .stat (compressedImagePath env f),
            .save (compressedFileData f (compressedImagePath env f) f.size n)]
          console := [unlinkLine env f]
          responses :=
            [⟨201, .created "File uploaded, compressed, and data saved successfully" f.size n
              (compressedFileData f (compressedImagePath env f) f.size n)⟩]
          store := store ++ [compressedFileData f (compressedImagePath env f) f.size n] } := by
  obtain ⟨file⟩ := req
  cases file with
  | none =>
    rw [run_noFile] at hr
    simp [World.fresh] at hr
    rw [hr] at h201
    simp at h201
  | some f =>
    rcases run_file_cases env f (World.fresh store) with
      ⟨e, _, hw⟩ | ⟨e, _, _, hw⟩ | ⟨n, e, _, _, _, hw⟩ | ⟨n, h1, h2, h3, hw⟩
    · rw [hw] at hr
      simp [World.fresh] at hr
      rw [hr] at h201
      simp at h201
    · rw [hw] at hr
      simp [World.fresh] at hr
      rw [hr] at h201
      simp at h201
    · rw [hw] at hr
      simp [World.fresh] at hr
      rw [hr] at h201
      simp at h201
    · refine ⟨f, n, rfl, h1, h2, h3, ?_, ?_⟩
      · rw [hw] at hr
        simpa [World.fresh] using hr
      · rw [hw]
        simp [World.fresh]

/-! ## Decimal numerals -/

theorem toDigitsCore_eq_digits (fuel : Nat) : ∀ (n : Nat) (ds : List Char), n < fuel → 0 < n →
    Nat.toDigitsCore 10 fuel n ds = ((Nat.digits 10 n).reverse.map Nat.digitChar) ++ ds := by
  induction fuel with
  | zero => intro n ds h; omega
  | succ fuel ih =>
    intro n ds hlt hpos
    have hd : Nat.digits 10 n = n % 10 :: Nat.digits 10 (n / 10) :=
      Nat.digits_def' (by norm_num) hpos
    rw [hd]
    simp only [Nat.toDigitsCore]
    by_cases h0 : n / 10 = 0
    · simp [h0]
    · have h1 : n / 10 < fuel := by omega
      have h2 : 0 < n / 10 := Nat.pos_of_ne_zero h0
      simp [h0, ih (n / 10) _ h1 h2]

/-- The string a template literal gives for a timestamp is its decimal numeral. -/
theorem toString_eq_decimal (n : Nat) : toString n = decimal n := by
  show Nat.repr n = decimal n
  unfold Nat.repr decimal
  by_cases h : n = 0
  · subst h
    rfl
  · simp only [h, if_false]
    rw [Nat.toDigits, toDigitsCore_eq_digits (n + 1) n [] (by omega) (Nat.pos_of_ne_zero h)]
    simp [List.asString]

theorem digitChar_inj (a b : Nat) (ha : a < 10) (hb : b < 10)
    (h : Nat.digitChar a = Nat.digitChar b) : a = b := by
  interval_cases a <;> interval_cases b <;> revert h <;> decide

theorem map_digitChar_inj : ∀ l1 l2 : List Nat, (∀ x ∈ l1, x < 10) → (∀ x ∈ l2, x < 10) →
    l1.map Nat.digitChar = l2.map Nat.digitChar → l1 = l2 := by
  intro l1
  induction l1 with
  | nil =>
    intro l2 _ _ h
    cases l2 with
    | nil => rfl
    | cons b l2 => simp at h
  | cons a l1 ih =>
    intro l2 h1 h2 h
    cases l2 with
    | nil => simp at h
    | cons b l2 =>
      simp only [List.map_cons, List.cons.injEq] at h
      have hab := digitChar_inj a b (h1 a (by simp)) (h2 b (by simp)) h.1
      have := ih l2 (fun x hx => h1 x (by simp [hx])) (fun x hx => h2 x (by simp [hx])) h.2
      rw [hab, this]

theorem decimal_inj (n m : Nat) (h : decimal n = decimal m) : n = m := by
  have key : ∀ k : Nat, ∃ l : List Nat, (∀ x ∈ l, x < 10) ∧ Nat.ofDigits 10 l = k ∧
      decimal k = String.mk (l.reverse.map Nat.digitChar) := by
    intro k
    by_cases hk : k = 0
    · exact ⟨[0], by simp, by simp [hk, Nat.ofDigits], by subst hk; rfl⟩
    · exact ⟨Nat.digits 10 k, fun x hx => Nat.digits_lt_base (by norm_num) hx,
        Nat.ofDigits_digits 10 k, by simp [decimal, hk]⟩
  obtain ⟨l1, hl1, ho1, hd1⟩ := key n
  obtain ⟨l2, hl2, ho2, hd2⟩ := key m
  rw [hd1, hd2] at h
  have hmap : l1.reverse.map Nat.digitChar = l2.reverse.map Nat.digitChar :=
    congrArg String.data h
  have hrev := map_digitChar_inj l1.reverse l2.reverse (by simpa using hl1)
    (by simpa using hl2) hmap
  have hl : l1 = l2 := List.reverse_injective hrev
  rw [← ho1, ← ho2, hl]

/-- With the original name fixed, the stored name determines the timestamp. -/
theorem filename_inj (o : String) (t1 t2 : Nat) (h : filename t1 o = filename t2 o) :
    t1 = t2 := by
  unfold filename at h
  have h1 : (toString t1 ++ "-" ++ o).data = (toString t2 ++ "-" ++ o).data := by rw [h]
  simp only [String.data_append] at h1
  have h2 := List.append_cancel_right (List.append_cancel_right h1)
  have h3 : toString t1 = toString t2 := String.ext h2
  rw [toString_eq_decimal, toString_eq_decimal] at h3
  exact decimal_inj _ _ h3

/-- Prepending `compressed-` changes every name. -/
theorem compressed_name_ne (name : String) : "compressed-" ++ name ≠ name := by
  intro h
  have hl := congrArg String.length h
  rw [String.length_append] at hl
  have h11 : ("compressed-" : String).length = 11 := by decide
  omega

/-! ## Names and paths of multer-built descriptors -/

theorem splitSlash_of_not_mem (l : List Char) (h : '/' ∉ l) : splitSlash l = [l] := by
  induction l with
  | nil => rfl
  | cons c cs ih =>
    have hc : c ≠ '/' := fun hc => h (by simp [hc])
    have hcs : '/' ∉ cs := fun hcs => h (by simp [hcs])
    simp [splitSlash, hc, ih hcs]

/-- The sample join puts a plain name, unchanged, into `uploads/`. -/
theorem posixJoin_uploadDir (b : String) (h : PlainName b) :
    posixJoin uploadDir b = "uploads/" ++ b := by
  obtain ⟨hs, _, he, hd, hdd⟩ := h
  obtain ⟨bd⟩ := b
  have he' : bd ≠ [] := fun h0 => he (by rw [h0])
  have hd' : bd ≠ ['.'] := fun h0 => hd (by rw [h0])
  have hdd' : bd ≠ ['.', '.'] := fun h0 => hdd (by rw [h0])
  have hsplit := splitSlash_of_not_mem bd hs
  have hlast : (bd.getLast? = some '/') = False := by
    apply eq_false
    intro hl
    exact hs (List.mem_of_getLast?_eq_some hl)
  have hne : ("./uploads" : String) ≠ "" := by decide
  have hb : (String.mk bd = "") = False := by
    apply eq_false
    intro h0
    exact he h0
  apply String.ext
  simp only [posixJoin, uploadDir, hne, if_false, hb]
  show posixNormalize ('.' :: '/' :: 'u' :: 'p' :: 'l' :: 'o' :: 'a' :: 'd' :: 's' :: '/' :: bd) =
    'u' :: 'p' :: 'l' :: 'o' :: 'a' :: 'd' :: 's' :: '/' :: bd
  have hlast2 :
      ('.' :: '/' :: 'u' :: 'p' :: 'l' :: 'o' :: 'a' :: 'd' :: 's' :: '/' :: bd).getLast? =
        bd.getLast? := by
    cases bd with
    | nil => exact absurd rfl he'
    | cons c cs => simp [List.getLast?_cons_cons]
  simp [posixNormalize, hlast2, hlast, splitSlash, hsplit, pushSegment, he', hd', hdd',
    joinSlash]

/-- The sample join keeps plain names apart. -/
theorem posixJoin_keepsPlainNamesApart : KeepsPlainNamesApart posixJoin := by
  intro a b ha hb h
  rw [posixJoin_uploadDir a ha, posixJoin_uploadDir b hb] at h
  have hd := congrArg String.data h
  simp only [String.data_append] at hd
  exact String.ext (List.append_cancel_left hd)

theorem digitChar_not_separator (d : Nat) (h : d < 10) :
    Nat.digitChar d ≠ '/' ∧ Nat.digitChar d ≠ Char.ofNat 92 := by
  interval_cases d <;> decide

theorem decimal_no_separator (n : Nat) :
    '/' ∉ (decimal n).data ∧ Char.ofNat 92 ∉ (decimal n).data := by
  unfold decimal
  by_cases h : n = 0
  · subst h
    decide
  · simp only [h, if_false, List.mem_map, List.mem_reverse, not_exists, not_and]
    constructor
    · intro d hd
      exact (digitChar_not_separator d (Nat.digits_lt_base (by norm_num) hd)).1
    · intro d hd
      exact (digitChar_not_separator d (Nat.digits_lt_base (by norm_num) hd)).2

/-- A name that holds a `-` and no separator is plain. -/
theorem plainName_of_dash (s : String) (h1 : '/' ∉ s.data) (h2 : Char.ofNat 92 ∉ s.data)
    (h3 : '-' ∈ s.data) : PlainName s := by
  refine ⟨h1, h2, ?_, ?_, ?_⟩ <;>
  · intro h
    rw [h] at h3
    revert h3
    decide

/-- The stored name and the derived name of a separator-free original name are
plain names. -/
theorem filename_plain (now : Nat) (o : String) (h1 : '/' ∉ o.data)
    (h2 : Char.ofNat 92 ∉ o.data) :
    PlainName (filename now o) ∧ PlainName ("compressed-" ++ filename now o) := by
  obtain ⟨hd1, hd2⟩ := decimal_no_separator now
  have hc1 : '/' ∉ ("compressed-" : String).data := by decide
  have hc2 : Char.ofNat 92 ∉ ("compressed-" : String).data := by decide
  have hm1 : '/' ∉ ("-" : String).data := by decide
  have hm2 : Char.ofNat 92 ∉ ("-" : String).data := by decide
  have hdash : '-' ∈ ("-" : String).data := by decide
  constructor
  · apply plainName_of_dash <;>
      simp only [filename, toString_eq_decimal, String.data_append, List.mem_append, not_or]
    · exact ⟨⟨hd1, hm1⟩, h1⟩
    · exact ⟨⟨hd2, hm2⟩, h2⟩
    · exact Or.inl (Or.inr hdash)
  · apply plainName_of_dash <;>
      simp only [filename, toString_eq_decimal, String.data_append, List.mem_append, not_or]
    · exact ⟨hc1, ⟨hd1, hm1⟩, h1⟩
    · exact ⟨hc2, ⟨hd2, hm2⟩, h2⟩
    · exact Or.inr (Or.inl (Or.inr hdash))

/-- For a descriptor built by multer's disk storage, the original's path is not
the derived file's path. -/
theorem storage_path_ne_compressed (env : Env) (now : Nat) (f : UploadedFile)
    (hs : FromStorage env now f) (hj : KeepsPlainNamesApart env.join) :
    f.path ≠ compressedImagePath env f := by
  obtain ⟨h1, h2, hdest, hname, hpath⟩ := hs
  obtain ⟨hp, hpc⟩ := filename_plain now f.originalname h1 h2
  intro heq
  rw [hpath, hdest, compressedImagePath, hname] at heq
  exact compressed_name_ne _ (hj _ _ hp hpc heq).symm

/-! ## The claims -/

/-- C1, as stated, fails.  With a file present, sharp succeeding and `statSync`
throwing, the transcoding step has succeeded, yet no document is submitted to
the store and the collection stays empty: "a record is written if and only if
transcoding succeeded" is false at this input. -/
theorem record_not_written_when_measuring_fails :
    ¬ (((run envStatFails ⟨some fileA⟩ (World.fresh [])).store ≠ [] ∨
        ∃ doc, Effect.save doc ∈ (run envStatFails ⟨some fileA⟩ (World.fresh [])).effects) ↔
       envStatFails.sharp fileA.path 800 80 (compressedImagePath envStatFails fileA) =
         .ok ()) := by
  have h : run envStatFails ⟨some fileA⟩ (World.fresh []) =
      { effects := [.transcode "uploads/1000-photo.jpg" 800 80
            "uploads/compressed-1000-photo.jpg",
          .unlink "uploads/1000-photo.jpg", .stat "uploads/compressed-1000-photo.jpg"]
        console := [.log "Original file uploads/1000-photo.jpg deleted successfully."]
        responses := [⟨500, .failure "Error processing the file" ⟨"ENOENT"⟩⟩]
        store := [] } := by decide
  rw [h]
  simp [envStatFails, envAllOk]

/-- C1, amended.  With a file present, for every outcome of the collaborators:
a document enters the store if and only if the transcode, the measurement and
the save all succeed; otherwise the store is left as it was; and a document is
submitted to the store if and only if the transcode and the measurement
succeed.  In particular nothing is written when transcoding fails. -/
theorem record_written_iff_all_steps_succeed (env : Env) (f : UploadedFile)
    (store : List FileRecord) :
    ((∃ doc, (run env ⟨some f⟩ (World.fresh store)).store = store ++ [doc]) ↔
      ∃ n, env.sharp f.path 800 80 (compressedImagePath env f) = .ok () ∧
        env.statSize (compressedImagePath env f) = .ok n ∧
        env.save (compressedFileData f (compressedImagePath env f) f.size n) = .ok ()) ∧
    ((run env ⟨some f⟩ (World.fresh store)).store = store ∨
      ∃ n, env.statSize (compressedImagePath env f) = .ok n ∧
        (run env ⟨some f⟩ (World.fresh store)).store =
          store ++ [compressedFileData f (compressedImagePath env f) f.size n]) ∧
    ((∃ doc, Effect.save doc ∈ (run env ⟨some f⟩ (World.fresh store)).effects) ↔
      ∃ n, env.sharp f.path 800 80 (compressedImagePath env f) = .ok () ∧
        env.statSize (compressedImagePath env f) = .ok n) := by
  rcases run_file_cases env f (World.fresh store) with
    ⟨e, h1, hw⟩ | ⟨e, h1, h2, hw⟩ | ⟨n, e, h1, h2, h3, hw⟩ | ⟨n, h1, h2, h3, hw⟩
  · rw [hw]
    simp [World.fresh, h1]
  · rw [hw]
    simp [World.fresh, h1, h2]
  · rw [hw]
    simp [World.fresh, h1, h2, h3]
  · rw [hw]
    simp [World.fresh, h1, h2, h3]

/-- C2.  When `req.file` is absent the handler sends the single response 400
with body `{ message: 'No file uploaded' }` and calls no collaborator at all: no
transcode, no deletion, no stat, no save; the store is unchanged. -/
theorem no_file_gives_400_without_side_effects (env : Env) (req : Request)
    (store : List FileRecord) (h : req.file = none) :
    (run env req (World.fresh store)).responses = [⟨400, .noFile "No file uploaded"⟩] ∧
    (∀ r ∈ (run env req (World.fresh store)).responses,
      r.status = 400 ∧ r.body.message = "No file uploaded") ∧
    (run env req (World.fresh store)).effects = [] ∧
    (run env req (World.fresh store)).store = store := by
  obtain ⟨file⟩ := req
  simp only at h
  subst h
  refine ⟨rfl, ?_, rfl, rfl⟩
  intro r hr
  rw [run_noFile] at hr
  simp only [World.fresh, List.nil_append, List.mem_singleton] at hr
  subst hr
  exact ⟨rfl, rfl⟩

/-- An instance of C2: a request without a file, all collaborators willing. -/
theorem no_file_gives_400_without_side_effects_witness :
    (⟨none⟩ : Request).file = none ∧
    (run envAllOk ⟨none⟩ (World.fresh [])).responses = [⟨400, .noFile "No file uploaded"⟩] ∧
    (∀ r ∈ (run envAllOk ⟨none⟩ (World.fresh [])).responses,
      r.status = 400 ∧ r.body.message = "No file uploaded") ∧
    (run envAllOk ⟨none⟩ (World.fresh [])).effects = [] ∧
    (run envAllOk ⟨none⟩ (World.fresh [])).store = [] :=
  ⟨rfl, no_file_gives_400_without_side_effects envAllOk ⟨none⟩ [] rfl⟩

/-- C3.  With a file present, when the transcoding step rejects with `e` the
handler sends the single response 500 (carrying `e`), makes no `unlink` call at
all (the original is not deleted), submits no document to the store and leaves
the store unchanged. -/
theorem transcode_failure_gives_500_keeps_original (env : Env) (f : UploadedFile)
    (store : List FileRecord) (e : JsError)
    (h : env.sharp f.path 800 80 (compressedImagePath env f) = .error e) :
    (run env ⟨some f⟩ (World.fresh store)).responses =
      [⟨500, .failure "Error processing the file" e⟩] ∧
    (∀ p, Effect.unlink p ∉ (run env ⟨some f⟩ (World.fresh store)).effects) ∧
    (∀ doc, Effect.save doc ∉ (run env ⟨some f⟩ (World.fresh store)).effects) ∧
    (run env ⟨some f⟩ (World.fresh store)).store = store := by
  rw [run_transcodeFails env f _ e h]
  simp [World.fresh]

/-- An instance of C3: sharp rejects `fileA` as undecodable. -/
theorem transcode_failure_gives_500_keeps_original_witness :
    envTranscodeFails.sharp fileA.path 800 80 (compressedImagePath envTranscodeFails fileA) =
      .error ⟨"Input file contains unsupported image format"⟩ ∧
    (run envTranscodeFails ⟨some fileA⟩ (World.fresh [])).responses =
      [⟨500, .failure "Error processing the file"
        ⟨"Input file contains unsupported image format"⟩⟩] ∧
    (∀ p, Effect.unlink p ∉ (run envTranscodeFails ⟨some fileA⟩ (World.fresh [])).effects) ∧
    (∀ doc, Effect.save doc ∉ (run envTranscodeFails ⟨some fileA⟩ (World.fresh [])).effects) ∧
    (run envTranscodeFails ⟨some fileA⟩ (World.fresh [])).store = [] :=
  ⟨rfl, transcode_failure_gives_500_keeps_original envTranscodeFails fileA [] _ rfl⟩

/-- C4.  Deleting the original is non-fatal.  When transcoding succeeded, for
every outcome of the stat and save steps and for any two behaviours `u1`, `u2`
of `unlink` (one may resolve, the other reject), the two runs send the same
responses, make the same collaborator calls with the same arguments (so submit
the same record) and leave the same store; the deletion is attempted and the
run goes on to measure the derived file whatever the deletion did. -/
theorem unlink_outcome_not_observable (env : Env) (u1 u2 : String → Except JsError Unit)
    (f : UploadedFile) (store : List FileRecord)
    (h : env.sharp f.path 800 80 (compressedImagePath env f) = .ok ()) :
    (run { env with unlink := u1 } ⟨some f⟩ (World.fresh store)).responses =
      (run { env with unlink := u2 } ⟨some f⟩ (World.fresh store)).responses ∧
    (run { env with unlink := u1 } ⟨some f⟩ (World.fresh store)).effects =
      (run { env with unlink := u2 } ⟨some f⟩ (World.fresh store)).effects ∧
    (run { env with unlink := u1 } ⟨some f⟩ (World.fresh store)).store =
      (run { env with unlink := u2 } ⟨some f⟩ (World.fresh store)).store ∧
    Effect.unlink f.path ∈
      (run { env with unlink := u1 } ⟨some f⟩ (World.fresh store)).effects ∧
    Effect.stat (compressedImagePath env f) ∈
      (run { env with unlink := u1 } ⟨some f⟩ (World.fresh store)).effects := by
  rcases h2 : env.statSize (compressedImagePath env f) with e | n
  · rw [run_statFails { env with unlink := u1 } f _ e h h2,
      run_statFails { env with unlink := u2 } f _ e h h2]
    simp [compressedImagePath]
  · rcases h3 : env.save (compressedFileData f (compressedImagePath env f) f.size n) with e | u
    · rw [run_saveFails { env with unlink := u1 } f _ n e h h2 h3,
        run_saveFails { env with unlink := u2 } f _ n e h h2 h3]
      simp [compressedImagePath]
    · rw [run_allSucceed { env with unlink := u1 } f _ n h h2 h3,
        run_allSucceed { env with unlink := u2 } f _ n h h2 h3]
      simp [compressedImagePath]

/-- An instance of C4: the run in which `unlink` resolves against the run in
which it rejects. -/
theorem unlink_outcome_not_observable_witness :
    envAllOk.sharp fileA.path 800 80 (compressedImagePath envAllOk fileA) = .ok () ∧
    (run { envAllOk with unlink := unlinkResolves } ⟨some fileA⟩ (World.fresh [])).responses =
      (run { envAllOk with unlink := unlinkRejects } ⟨some fileA⟩ (World.fresh [])).responses ∧
    (run { envAllOk with unlink := unlinkResolves } ⟨some fileA⟩ (World.fresh [])).effects =
      (run { envAllOk with unlink := unlinkRejects } ⟨some fileA⟩ (World.fresh [])).effects ∧
    (run { envAllOk with unlink := unlinkResolves } ⟨some fileA⟩ (World.fresh [])).store =
      (run { envAllOk with unlink := unlinkRejects } ⟨some fileA⟩ (World.fresh [])).store ∧
    Effect.unlink fileA.path ∈
      (run { envAllOk with unlink := unlinkResolves } ⟨some fileA⟩ (World.fresh [])).effects ∧
    Effect.stat (compressedImagePath envAllOk fileA) ∈
      (run { envAllOk with unlink := unlinkResolves } ⟨some fileA⟩ (World.fresh [])).effects :=
  ⟨rfl, unlink_outcome_not_observable envAllOk unlinkResolves unlinkRejects fileA [] rfl⟩

/-- C5.  Whenever the handler answers 201, the file was present, `statSync`
measured some size `n` at the compressed path, exactly one document `doc` was
submitted to the store and entered it, and `doc.compressedSize = doc.size = n`,
whatever `size` the incoming descriptor carried. -/
theorem saved_sizes_equal_measured_size (env : Env) (req : Request)
    (store : List FileRecord) (r : Response)
    (hr : r ∈ (run env req (World.fresh store)).responses) (h201 : r.status = 201) :
    ∃ f n doc, req.file = some f ∧
      env.statSize (compressedImagePath env f) = .ok n ∧
      Effect.stat (compressedImagePath env f) ∈ (run env req (World.fresh store)).effects ∧
      (run env req (World.fresh store)).effects.filter Effect.isSave = [.save doc] ∧
      (run env req (World.fresh store)).store = store ++ [doc] ∧
      doc.compressedSize = doc.size ∧ doc.size = n ∧ doc.compressedSize = n := by
  obtain ⟨f, n, hf, _, h2, _, _, hw⟩ := created_inv env req store r hr h201
  refine ⟨f, n, compressedFileData f (compressedImagePath env f) f.size n, hf, h2, ?_⟩
  rw [hw]
  simp [Effect.isSave, compressedFileData]

/-- An instance of C5: `fileA` declares 3200000 bytes, the derived file measures
1234, and the saved record has `size = compressedSize = 1234`. -/
theorem saved_sizes_equal_measured_size_witness :
    responseA ∈ (run envAllOk ⟨some fileA⟩ (World.fresh [])).responses ∧
    responseA.status = 201 ∧
    ∃ f n doc, (⟨some fileA⟩ : Request).file = some f ∧
      envAllOk.statSize (compressedImagePath envAllOk f) = .ok n ∧
      Effect.stat (compressedImagePath envAllOk f) ∈
        (run envAllOk ⟨some fileA⟩ (World.fresh [])).effects ∧
      (run envAllOk ⟨some fileA⟩ (World.fresh [])).effects.filter Effect.isSave =
        [.save doc] ∧
      (run envAllOk ⟨some fileA⟩ (World.fresh [])).store = [] ++ [doc] ∧
      doc.compressedSize = doc.size ∧ doc.size = n ∧ doc.compressedSize = n :=
  ⟨by decide, rfl,
    saved_sizes_equal_measured_size envAllOk ⟨some fileA⟩ [] responseA (by decide) rfl⟩

/-- C6.  When transcoding and measuring succeed and the save rejects with `e`,
the handler sends the single response 500 (carrying `e`) and the store is left
as it was.  The derived file was written at the compressed path, and the only
deletion the run attempts is the one `unlink` of the original file's path.  So
the compressed file is not deleted: no `unlink` of the compressed path occurs
whenever the original's path is not the compressed path, and that is so for
every descriptor multer's disk storage builds (`FromStorage`) under a
`path.join` that keeps plain names apart. -/
theorem save_failure_gives_500_keeps_artifact (env : Env) (f : UploadedFile)
    (store : List FileRecord) (n : Nat) (e : JsError)
    (h1 : env.sharp f.path 800 80 (compressedImagePath env f) = .ok ())
    (h2 : env.statSize (compressedImagePath env f) = .ok n)
    (h3 : env.save (compressedFileData f (compressedImagePath env f) f.size n) = .error e) :
    (run env ⟨some f⟩ (World.fresh store)).responses =
      [⟨500, .failure "Error processing the file" e⟩] ∧
    (run env ⟨some f⟩ (World.fresh store)).store = store ∧
    Effect.transcode f.path 800 80 (compressedImagePath env f) ∈
      (run env ⟨some f⟩ (World.fresh store)).effects ∧
    (run env ⟨some f⟩ (World.fresh store)).effects.filter Effect.isUnlink =
      [.unlink f.path] ∧
    (∀ p, Effect.unlink p ∈ (run env ⟨some f⟩ (World.fresh store)).effects → p = f.path) ∧
    (f.path ≠ compressedImagePath env f →
      Effect.unlink (compressedImagePath env f) ∉
        (run env ⟨some f⟩ (World.fresh store)).effects) ∧
    (∀ now, FromStorage env now f → KeepsPlainNamesApart env.join →
      Effect.unlink (compressedImagePath env f) ∉
        (run env ⟨some f⟩ (World.fresh store)).effects) := by
  have hne : f.path ≠ compressedImagePath env f →
      Effect.unlink (compressedImagePath env f) ∉
        (run env ⟨some f⟩ (World.fresh store)).effects := by
    intro hp
    rw [run_saveFails env f _ n e h1 h2 h3]
    simp [World.fresh, Ne.symm hp]
  refine ⟨?_, ?_, ?_, ?_, ?_, hne, ?_⟩
  · rw [run_saveFails env f _ n e h1 h2 h3]
    rfl
  · rw [run_saveFails env f _ n e h1 h2 h3]
    rfl
  · rw [run_saveFails env f _ n e h1 h2 h3]
    simp [World.fresh]
  · rw [run_saveFails env f _ n e h1 h2 h3]
    simp [World.fresh, Effect.isUnlink]
  · rw [run_saveFails env f _ n e h1 h2 h3]
    simp [World.fresh]
  · intro now hs hj
    exact hne (storage_path_ne_compressed env now f hs hj)

/-- An instance of C6: the store is unreachable while `fileA`, built by the disk
storage at time 1000, is processed under `path.posix.join`; the original
`uploads/1000-photo.jpg` is unlinked and `uploads/compressed-1000-photo.jpg` is
not. -/
theorem save_failure_gives_500_keeps_artifact_witness :
    envNodeSaveFails.sharp fileA.path 800 80 (compressedImagePath envNodeSaveFails fileA) =
      .ok () ∧
    envNodeSaveFails.statSize (compressedImagePath envNodeSaveFails fileA) = .ok 1234 ∧
    envNodeSaveFails.save
      (compressedFileData fileA (compressedImagePath envNodeSaveFails fileA) fileA.size
        1234) = .error ⟨"MongoNetworkError"⟩ ∧
    FromStorage envNodeSaveFails 1000 fileA ∧
    KeepsPlainNamesApart envNodeSaveFails.join ∧
    compressedImagePath envNodeSaveFails fileA = "uploads/compressed-1000-photo.jpg" ∧
    (run envNodeSaveFails ⟨some fileA⟩ (World.fresh [])).responses =
      [⟨500, .failure "Error processing the file" ⟨"MongoNetworkError"⟩⟩] ∧
    (run envNodeSaveFails ⟨some fileA⟩ (World.fresh [])).store = [] ∧
    Effect.transcode "uploads/1000-photo.jpg" 800 80 "uploads/compressed-1000-photo.jpg" ∈
      (run envNodeSaveFails ⟨some fileA⟩ (World.fresh [])).effects ∧
    (run envNodeSaveFails ⟨some fileA⟩ (World.fresh [])).effects.filter Effect.isUnlink =
      [.unlink "uploads/1000-photo.jpg"] ∧
    Effect.unlink "uploads/compressed-1000-photo.jpg" ∉
      (run envNodeSaveFails ⟨some fileA⟩ (World.fresh [])).effects :=
  have h := save_failure_gives_500_keeps_artifact envNodeSaveFails fileA [] 1234
    ⟨"MongoNetworkError"⟩ rfl rfl rfl
  have hs : FromStorage envNodeSaveFails 1000 fileA := by decide
  ⟨rfl, rfl, rfl, hs, posixJoin_keepsPlainNamesApart, by decide, h.1, h.2.1, h.2.2.1,
    h.2.2.2.1, h.2.2.2.2.2.2 1000 hs posixJoin_keepsPlainNamesApart⟩

/-- C7.  For every request and every behaviour of the collaborators the handler
sends exactly one response `r`; its status is 400 exactly when no file is
present, 201 exactly when a file is present and the transcode, the stat and the
save all succeed, and 500 exactly in the remaining cases. -/
theorem exactly_one_response_with_status (env : Env) (req : Request)
    (store : List FileRecord) :
    ∃ r, (run env req (World.fresh store)).responses = [r] ∧
      (r.status = 400 ↔ req.file = none) ∧
      (r.status = 201 ↔ ∃ f n, req.file = some f ∧
        env.sharp f.path 800 80 (compressedImagePath env f) = .ok () ∧
        env.statSize (compressedImagePath env f) = .ok n ∧
        env.save (compressedFileData f (compressedImagePath env f) f.size n) = .ok ()) ∧
      (r.status = 500 ↔ req.file ≠ none ∧ ¬ ∃ f n, req.file = some f ∧
        env.sharp f.path 800 80 (compressedImagePath env f) = .ok () ∧
        env.statSize (compressedImagePath env f) = .ok n ∧
        env.save (compressedFileData f (compressedImagePath env f) f.size n) = .ok ()) := by
  obtain ⟨file⟩ := req
  cases file with
  | none => exact ⟨_, by rw [run_noFile]; rfl, by simp⟩
  | some f =>
    rcases run_file_cases env f (World.fresh store) with
      ⟨e, h1, hw⟩ | ⟨e, h1, h2, hw⟩ | ⟨n, e, h1, h2, h3, hw⟩ | ⟨n, h1, h2, h3, hw⟩
    · exact ⟨_, by rw [hw]; rfl, by simp [h1]⟩
    · exact ⟨_, by rw [hw]; rfl, by simp [h1, h2]⟩
    · exact ⟨_, by rw [hw]; rfl, by simp [h1, h2, h3]⟩
    · exact ⟨_, by rw [hw]; rfl, by simp [h1, h2, h3]⟩

/-- C8.  Whenever the handler answers 201, the one document `doc` it submitted
to the store is the `file` member of the response body, whose `originalSize`
and `compressedSize` members are the document's own; `doc.path` is
`path.join(uploadDir, "compressed-" + filename)`, the path the transcode wrote
the derived file to, and it is not the original's path for any descriptor
multer's disk storage builds (`FromStorage`) under a `path.join` that keeps
plain names apart; `doc.originalSize` is the descriptor's `size`; and
`fieldname`, `originalname`, `encoding`, `mimetype`, `destination` and
`filename` are the descriptor's, unchanged. -/
theorem record_extends_descriptor (env : Env) (req : Request) (store : List FileRecord)
    (r : Response)
    (hr : r ∈ (run env req (World.fresh store)).responses) (h201 : r.status = 201) :
    ∃ f doc, req.file = some f ∧
      (run env req (World.fresh store)).effects.filter Effect.isSave = [.save doc] ∧
      r.body = .created "File uploaded, compressed, and data saved successfully"
        doc.originalSize doc.compressedSize doc ∧
      doc.path = env.join uploadDir ("compressed-" ++ f.filename) ∧
      Effect.transcode f.path 800 80 doc.path ∈ (run env req (World.fresh store)).effects ∧
      (∀ now, FromStorage env now f → KeepsPlainNamesApart env.join → doc.path ≠ f.path) ∧
      doc.originalSize = f.size ∧
      doc.fieldname = f.fieldname ∧ doc.originalname = f.originalname ∧
      doc.encoding = f.encoding ∧ doc.mimetype = f.mimetype ∧
      doc.destination = f.destination ∧ doc.filename = f.filename := by
  obtain ⟨f, n, hf, _, _, _, hr', hw⟩ := created_inv env req store r hr h201
  refine ⟨f, compressedFileData f (compressedImagePath env f) f.size n, hf, ?_⟩
  rw [hw, hr']
  refine ⟨rfl, rfl, rfl, ?_, ?_, rfl, rfl, rfl, rfl, rfl, rfl, rfl⟩
  · simp [compressedFileData, compressedImagePath]
  · intro now hs hj
    exact (storage_path_ne_compressed env now f hs hj).symm

/-- An instance of C8: the record saved for `fileA`, built by the disk storage at
time 1000, under `path.posix.join`; its path `uploads/compressed-1000-photo.jpg`
is not the original's `uploads/1000-photo.jpg`. -/
theorem record_extends_descriptor_witness :
    responseA ∈ (run envNodeOk ⟨some fileA⟩ (World.fresh [])).responses ∧
    responseA.status = 201 ∧
    FromStorage envNodeOk 1000 fileA ∧
    KeepsPlainNamesApart envNodeOk.join ∧
    ∃ f doc, (⟨some fileA⟩ : Request).file = some f ∧
      (run envNodeOk ⟨some fileA⟩ (World.fresh [])).effects.filter Effect.isSave =
        [.save doc] ∧
      responseA.body = .created "File uploaded, compressed, and data saved successfully"
        doc.originalSize doc.compressedSize doc ∧
      doc.path = envNodeOk.join uploadDir ("compressed-" ++ f.filename) ∧
      Effect.transcode f.path 800 80 doc.path ∈
        (run envNodeOk ⟨some fileA⟩ (World.fresh [])).effects ∧
      (∀ now, FromStorage envNodeOk now f → KeepsPlainNamesApart envNodeOk.join →
        doc.path ≠ f.path) ∧
      doc.originalSize = f.size ∧
      doc.fieldname = f.fieldname ∧ doc.originalname = f.originalname ∧
      doc.encoding = f.encoding ∧ doc.mimetype = f.mimetype ∧
      doc.destination = f.destination ∧ doc.filename = f.filename :=
  ⟨by decide, rfl, by decide, posixJoin_keepsPlainNamesApart,
    record_extends_descriptor envNodeOk ⟨some fileA⟩ [] responseA (by decide) rfl⟩

/-- C9.  For every original filename and every upload time `now`, the stored
filename is the decimal numeral of `now`, then `-`, then the original filename
verbatim; the derived file's path for a descriptor carrying that stored
filename is `path.join` of the upload directory and `compressed-` followed by
the stored filename; and that is the path the handler hands to the transcode,
its first collaborator call. -/
theorem stored_and_derived_names (env : Env) (now : Nat) (f : UploadedFile)
    (store : List FileRecord) :
    filename now f.originalname = decimal now ++ "-" ++ f.originalname ∧
    compressedImagePath env { f with filename := filename now f.originalname } =
      env.join uploadDir ("compressed-" ++ (decimal now ++ "-" ++ f.originalname)) ∧
    (run env ⟨some { f with filename := filename now f.originalname }⟩
        (World.fresh store)).effects.head? =
      some (.transcode f.path 800 80
        (env.join uploadDir ("compressed-" ++ (decimal now ++ "-" ++ f.originalname)))) := by
  have hn : filename now f.originalname = decimal now ++ "-" ++ f.originalname := by
    rw [filename, toString_eq_decimal]
  refine ⟨hn, by rw [compressedImagePath, hn], ?_⟩
  rcases run_file_cases env { f with filename := filename now f.originalname }
      (World.fresh store) with
    ⟨e, _, hw⟩ | ⟨e, _, _, hw⟩ | ⟨n, e, _, _, _, hw⟩ | ⟨n, _, _, _, hw⟩ <;>
  · rw [hw]
    simp [World.fresh, compressedImagePath, hn]

/-- For one original name, two uploads get the same stored filename exactly
when they read the same `Date.now()` value, and likewise for the derived names
`compressed-` + stored filename. -/
theorem filename_eq_iff_same_timestamp (originalname : String) (t1 t2 : Nat) :
    (filename t1 originalname = filename t2 originalname ↔ t1 = t2) ∧
    ("compressed-" ++ filename t1 originalname = "compressed-" ++ filename t2 originalname ↔
      t1 = t2) := by
  refine ⟨⟨filename_inj originalname t1 t2, fun h => by rw [h]⟩,
    ⟨fun h => ?_, fun h => by rw [h]⟩⟩
  have h1 : ("compressed-" ++ filename t1 originalname).data =
      ("compressed-" ++ filename t2 originalname).data := by rw [h]
  simp only [String.data_append] at h1
  exact filename_inj originalname t1 t2 (String.ext (List.append_cancel_left h1))

/-- C10.  The claim says two sequential uploads of files with identical original
names get two distinct stored filenames, and line 46 calls the name
`uniqueName`, "Unique filename to avoid conflicts".  The code does not deliver
it: `Date.now()` counts whole milliseconds and nothing else enters the name, so
two uploads of `photo.jpg` that both read 1000 are both stored as
`1000-photo.jpg`, and both derived files go to the same path. -/
theorem same_tick_uploads_collide :
    filename 1000 "photo.jpg" = "1000-photo.jpg" ∧
    compressedImagePath envNodeOk { fileA with filename := filename 1000 "photo.jpg" } =
      "uploads/compressed-1000-photo.jpg" ∧
    ¬ ∀ (originalname : String) (t1 t2 : Nat), t1 ≤ t2 →
      filename t1 originalname ≠ filename t2 originalname :=
  ⟨by decide, by decide, fun h => h "photo.jpg" 1000 1000 (Nat.le_refl 1000) rfl⟩

end Upload
